import Mathlib

/-!
# Verification of the vulkan tutorial programs (tutorial00 .. tutorial03)

Shallow embedding of the four tutorial `main.cpp` files.  Each native API
call is modelled through an environment (`Env`, `QFEnv`) that fixes the
status code the driver returns, the counts it reports, and whether each
`malloc` succeeds.  Running a tutorial yields its process exit code and a
trace of the observable native-API / heap events, in program order.

Modelling conventions:
* `VkResult` is the closed status enumeration used by the sources.
* Heap arrays are modelled by `Option Nat`: `none` is a null pointer,
  `some n` is a live allocation of exactly `n` entries.
* Opaque handles (`VkInstance`, `VkDevice`) are modelled by `Option Unit`:
  `none` is a null / never-written handle, `some ()` a valid one.
* A run ends in a `RunOutcome`: a process exit code, or a crash on a
  null-pointer dereference (tutorial03's zero-device path dereferences
  its null device array at `vkPhysDev[0]` and never reaches cleanup).
* `printf` logging is not modelled, except for the single "no devices"
  error message of `createPhysicalDevicesArray` (event `evLogNoDevices`),
  which two claims are about.  The property printers
  (`printPhysicalDevicesProperties`, the printing half of
  `printQueueFamilyInfo`) only format already-obtained data, so only their
  resource events (queue-family queries, mallocs, frees) are traced.
* The helper functions `createInstance`, `createPhysicalDevicesArray` and
  `getQueueFamilyProperites` are duplicated verbatim across the tutorial
  files; they are defined once here.
-/

/-- Status codes returned by the native API, as enumerated in the sources'
doc comments (`VK_SUCCESS` plus the closed set of error kinds). -/
inductive VkResult where
  | VK_SUCCESS
  | VK_ERROR_OUT_OF_HOST_MEMORY
  | VK_ERROR_OUT_OF_DEVICE_MEMORY
  | VK_ERROR_INITIALIZATION_FAILED
  | VK_ERROR_LAYER_NOT_PRESENT
  | VK_ERROR_EXTENSION_NOT_PRESENT
  | VK_ERROR_INCOMPATIBLE_DRIVER
  deriving DecidableEq

/-- The fields of `VkInstanceCreateInfo` that the tutorials assign and that
the claims are about.  `Option Unit` models the name-array pointers
(`none` = `NULL`). -/
structure VkInstanceCreateInfo where
  enabledLayerCount : Nat
  ppEnabledLayerNames : Option Unit
  enabledExtensionCount : Nat
  ppEnabledExtensionNames : Option Unit
  deriving DecidableEq

/-- The queue request embedded in `VkDeviceCreateInfo` (tutorial03). -/
structure VkDeviceQueueCreateInfo where
  queueFamilyIndex : Nat
  queueCount : Nat
  deriving DecidableEq

/-- The fields of `VkDeviceCreateInfo` assigned by tutorial03's
`createDevice`. -/
structure VkDeviceCreateInfo where
  enabledLayerCount : Nat
  ppEnabledLayerNames : Option Unit
  enabledExtensionCount : Nat
  ppEnabledExtensionNames : Option Unit
  queueCreateInfoCount : Nat
  pQueueCreateInfos : Option VkDeviceQueueCreateInfo
  deriving DecidableEq

/-- Observable events of a tutorial run, in program order: native calls
with the data passed / returned, heap allocations (with requested entry
count and outcome) and frees (of a non-null pointer, with its entry
count), and the one modelled log message. -/
inductive Event where
  | evCreateInstance (info : VkInstanceCreateInfo) (res : VkResult)
  | evDestroyInstance (inst : Option Unit)
  | evEnumPhysCount (res : VkResult)
  | evEnumPhysFill (res : VkResult)
  | evLogNoDevices
  | evQueueFamQuery (withBuffer : Bool)
  | evMalloc (entries : Nat) (ok : Bool)
  | evFree (entries : Nat)
  | evCreateDevice (info : VkDeviceCreateInfo) (res : VkResult)
  | evDestroyDevice (dev : Option Unit)
  deriving DecidableEq

/-- Driver behaviour for one `getQueueFamilyProperites` call: the count
written by the count-only query, whether the subsequent `malloc`
succeeds, and the count written by the fill query. -/
structure QFEnv where
  qfCount1 : Nat
  qfMallocOk : Bool
  qfCount2 : Nat

/-- Driver / allocator behaviour for one tutorial run.  `qfEnv i` is the
behaviour of the queue-family query against the `i`-th physical device. -/
structure Env where
  createInstanceRes : VkResult
  enumCountRes : VkResult
  enumCount : Nat
  devMallocOk : Bool
  enumFillRes : VkResult
  enumFillCount : Nat
  qfEnv : Nat → QFEnv
  createDeviceRes : VkResult

/-- Outcome of `createInstance` / `createDevice`: status, the handle
written through the out parameter (`none` when the native call failed and
left it unwritten / null), and the event trace. -/
structure CreateOut where
  res : VkResult
  handle : Option Unit
  trace : List Event

/-- Outcome of an enumerator: status, the count left in the out
parameter, the array out parameter (`some n` = allocation of `n`
entries, `none` = null), and the event trace. -/
structure EnumOut where
  res : VkResult
  count : Nat
  arr : Option Nat
  trace : List Event

/-- How a tutorial run ends: with a process exit code, or by crashing on
a null-pointer dereference (no exit code is ever produced then). -/
inductive RunOutcome where
  | exited (code : Int)
  | crashedNullDeref
  deriving DecidableEq

/-- Outcome of a tutorial `main`: how the process ended and the event
trace up to that point. -/
structure MainOut where
  outcome : RunOutcome
  trace : List Event

/-- The `VkInstanceCreateInfo` every tutorial builds: zero-initialized by
`= {}`, then the assignment sequence of the source, including the
repeated assignment `instInfo.enabledExtensionCount = NULL` (integer
zero); `ppEnabledExtensionNames` keeps its zero-initialized null value. -/
def mkInstInfo : VkInstanceCreateInfo :=
  let i0 : VkInstanceCreateInfo :=
    { enabledLayerCount := 0, ppEnabledLayerNames := none,
      enabledExtensionCount := 0, ppEnabledExtensionNames := none }
  let i1 := { i0 with enabledLayerCount := 0 }
  let i2 := { i1 with ppEnabledLayerNames := none }
  let i3 := { i2 with enabledExtensionCount := 0 }
  let i4 := { i3 with enabledExtensionCount := 0 }
  i4

/-- `createInstance` of tutorials 01/02/03 (and the inline body of
tutorial00's `main`): builds the create-info record and calls
`vkCreateInstance`, returning the driver's status verbatim. -/
def createInstance (env : Env) : CreateOut :=
  let instInfo := mkInstInfo
  let res := env.createInstanceRes
  { res := res
    handle := if res = VkResult.VK_SUCCESS then some () else none
    trace := [Event.evCreateInstance instInfo res] }

/-- The guarded free of the sources: `if (p) { free(p); }`. -/
def freeIfSome (p : Option Nat) : List Event :=
  match p with
  | some n => [Event.evFree n]
  | none => []

/-- `createPhysicalDevicesArray` (tutorials 01/02/03): count-then-fill
enumeration of physical devices.  A failed count query returns its code;
a zero count logs the "no devices" message and returns the prior code; a
failed `malloc` returns `VK_ERROR_OUT_OF_HOST_MEMORY`; otherwise the fill
query's code is returned with the allocated array. -/
def createPhysicalDevicesArray (env : Env) : EnumOut :=
  let res := env.enumCountRes
  let devCount := env.enumCount
  let tr0 := [Event.evEnumPhysCount res]
  if res ≠ VkResult.VK_SUCCESS then
    { res := res, count := devCount, arr := none, trace := tr0 }
  else if devCount = 0 then
    { res := res, count := devCount, arr := none,
      trace := tr0 ++ [Event.evLogNoDevices] }
  else
    let tr1 := tr0 ++ [Event.evMalloc devCount env.devMallocOk]
    if env.devMallocOk = false then
      { res := VkResult.VK_ERROR_OUT_OF_HOST_MEMORY, count := devCount,
        arr := none, trace := tr1 }
    else
      let res2 := env.enumFillRes
      { res := res2, count := env.enumFillCount, arr := some devCount,
        trace := tr1 ++ [Event.evEnumPhysFill res2] }

/-- `getQueueFamilyProperites` (tutorials 02/03, name as in the source):
count-then-fill enumeration of queue families.  The count-only query is a
void native call with no status; the function then allocates
unconditionally (even for a zero count), returns
`VK_ERROR_OUT_OF_HOST_MEMORY` exactly when the `malloc` returned null,
and otherwise performs the fill query and returns `VK_SUCCESS`. -/
def getQueueFamilyProperites (qf : QFEnv) : EnumOut :=
  let cnt := qf.qfCount1
  let tr0 := [Event.evQueueFamQuery false, Event.evMalloc cnt qf.qfMallocOk]
  if qf.qfMallocOk = false then
    { res := VkResult.VK_ERROR_OUT_OF_HOST_MEMORY, count := cnt,
      arr := none, trace := tr0 }
  else
    { res := VkResult.VK_SUCCESS, count := qf.qfCount2, arr := some cnt,
      trace := tr0 ++ [Event.evQueueFamQuery true] }

/-- The single queue request of tutorial03: queue family index 0, one
queue (the 1.0 float priority is not part of any claim handled here). -/
def mkDevQuInfo : VkDeviceQueueCreateInfo :=
  { queueFamilyIndex := 0, queueCount := 1 }

/-- The `VkDeviceCreateInfo` built by tutorial03's `createDevice`: no
layers, no extensions, exactly one queue-create record. -/
def mkDevInfo : VkDeviceCreateInfo :=
  { enabledLayerCount := 0, ppEnabledLayerNames := none,
    enabledExtensionCount := 0, ppEnabledExtensionNames := none,
    queueCreateInfoCount := 1, pQueueCreateInfos := some mkDevQuInfo }

/-- `createDevice` (tutorial03): queries the queue families of the given
physical device (index 0 of the array), and on success calls
`vkCreateDevice` with `mkDevInfo`; on either path the scoped
queue-family array is freed (guarded) before returning. -/
def createDevice (env : Env) : CreateOut :=
  let q := getQueueFamilyProperites (env.qfEnv 0)
  if q.res ≠ VkResult.VK_SUCCESS then
    { res := q.res, handle := none, trace := q.trace ++ freeIfSome q.arr }
  else
    let res := env.createDeviceRes
    { res := res
      handle := if res = VkResult.VK_SUCCESS then some () else none
      trace := q.trace ++ [Event.evCreateDevice mkDevInfo res]
               ++ freeIfSome q.arr }

/-- tutorial00 `main`: create the instance inline; on failure return -1;
on success destroy it and return 0. -/
def tut00_main (env : Env) : MainOut :=
  let instInfo := mkInstInfo
  let res := env.createInstanceRes
  let tr0 := [Event.evCreateInstance instInfo res]
  if res ≠ VkResult.VK_SUCCESS then
    { outcome := RunOutcome.exited (-1), trace := tr0 }
  else
    { outcome := RunOutcome.exited 0,
      trace := tr0 ++ [Event.evDestroyInstance (some ())] }

/-- tutorial01 `main`: instance, device enumeration, property printing,
then free-and-destroy.  Both failure checks are early `return -1`; the
enumeration failure path performs no teardown. -/
def tut01_main (env : Env) : MainOut :=
  let c := createInstance env
  if c.res ≠ VkResult.VK_SUCCESS then
    { outcome := RunOutcome.exited (-1), trace := c.trace }
  else
    let e := createPhysicalDevicesArray env
    if e.res ≠ VkResult.VK_SUCCESS then
      { outcome := RunOutcome.exited (-1), trace := c.trace ++ e.trace }
    else
      { outcome := RunOutcome.exited 0
        trace := c.trace ++ e.trace ++ freeIfSome e.arr
                 ++ [Event.evDestroyInstance c.handle] }

/-- The per-device loop of tutorial02's `printQueueFamilyInfo`:
iteration `i` queries the queue families of device `i`, prints them, and
frees the scoped array under a null guard.  `printQueueFamilyInfo q n`
is the trace of iterations `0 .. n-1`, in order. -/
def printQueueFamilyInfo (qfEnv : Nat → QFEnv) : Nat → List Event
  | 0 => []
  | n + 1 =>
      printQueueFamilyInfo qfEnv n ++
        (let q := getQueueFamilyProperites (qfEnv n)
         q.trace ++ freeIfSome q.arr)

/-- The `cleanup:` label of tutorial02's `main`: guarded free of the
device array, then an unguarded `vkDestroyInstance`. -/
def tut02_cleanup (arr : Option Nat) (inst : Option Unit) : List Event :=
  freeIfSome arr ++ [Event.evDestroyInstance inst]

/-- tutorial02 `main`: instance failure is an early `return -1`; an
enumeration failure jumps to `cleanup:`; the cleanup path always ends in
`return 0`. -/
def tut02_main (env : Env) : MainOut :=
  let c := createInstance env
  if c.res ≠ VkResult.VK_SUCCESS then
    { outcome := RunOutcome.exited (-1), trace := c.trace }
  else
    let e := createPhysicalDevicesArray env
    if e.res ≠ VkResult.VK_SUCCESS then
      { outcome := RunOutcome.exited 0,
        trace := c.trace ++ e.trace ++ tut02_cleanup e.arr c.handle }
    else
      { outcome := RunOutcome.exited 0
        trace := c.trace ++ e.trace ++ printQueueFamilyInfo env.qfEnv e.count
                 ++ tut02_cleanup e.arr c.handle }

/-- The `cleanup:` label of tutorial03's `main`: unguarded
`vkDestroyDevice`, guarded free of the device array, unguarded
`vkDestroyInstance` — in that textual order. -/
def tut03_cleanup (dev : Option Unit) (arr : Option Nat) (inst : Option Unit) :
    List Event :=
  [Event.evDestroyDevice dev] ++ freeIfSome arr ++ [Event.evDestroyInstance inst]

/-- tutorial03 `main`: instance failure is an early `return -1`;
enumeration or device-creation failure jumps to `cleanup:`; the cleanup
path always ends in `return 0`.  `vkDev` is initialized to 0 and only
written by a successful `vkCreateDevice`.  When the enumeration returns
`VK_SUCCESS` with a zero device count (the inconsistency of the
zero-device path), `vkPhysDev` is still the initial null pointer and the
call `createDevice(vkPhysDev[0], &vkDev)` at main.cpp line 263
dereferences it: the run crashes there, before `createDevice` and before
any cleanup. -/
def tut03_main (env : Env) : MainOut :=
  let c := createInstance env
  if c.res ≠ VkResult.VK_SUCCESS then
    { outcome := RunOutcome.exited (-1), trace := c.trace }
  else
    let e := createPhysicalDevicesArray env
    if e.res ≠ VkResult.VK_SUCCESS then
      { outcome := RunOutcome.exited 0,
        trace := c.trace ++ e.trace ++ tut03_cleanup none e.arr c.handle }
    else
      match e.arr with
      | none =>
          { outcome := RunOutcome.crashedNullDeref, trace := c.trace ++ e.trace }
      | some _ =>
          let d := createDevice env
          { outcome := RunOutcome.exited 0
            trace := c.trace ++ e.trace ++ d.trace
                     ++ tut03_cleanup d.handle e.arr c.handle }

/-- The API-version decomposition macros of tutorial01
(`VK_API_MAJOR_VERSION`): bits 31..22. -/
def VK_API_MAJOR_VERSION (x : Nat) : Nat := (x >>> 22) &&& 0x3FF

/-- `VK_API_MINOR_VERSION`: bits 21..12. -/
def VK_API_MINOR_VERSION (x : Nat) : Nat := (x >>> 12) &&& 0x3FF

/-- `VK_API_PATCH_VERSION`: bits 11..0. -/
def VK_API_PATCH_VERSION (x : Nat) : Nat := x &&& 0xFFF

/-- The packed version value the macros decode:
`(major << 22) | (minor << 12) | patch`. -/
def vkPackVersion (major minor patch : Nat) : Nat :=
  (major <<< 22) ||| (minor <<< 12) ||| patch

/-! ## Arithmetic helpers for the version macros -/

/-- The packed version value as plain arithmetic: the three bit fields do
not overlap, so the bitwise ors are additions. -/
theorem vkPackVersion_eq_add (a b c : Nat) (hb : b < 1024) (hc : c < 4096) :
    vkPackVersion a b c = 4194304 * a + 4096 * b + c := by
  have p22 : (2 : Nat) ^ 22 = 4194304 := by norm_num
  have p12 : (2 : Nat) ^ 12 = 4096 := by norm_num
  have hc2 : c < 2 ^ 12 := by rw [p12]; exact hc
  have h1 : (2 : Nat) ^ 12 * b ||| c = 2 ^ 12 * b + c :=
    (Nat.mul_add_lt_is_or hc2 b).symm
  have hlt : (2 : Nat) ^ 12 * b + c < 2 ^ 22 := by rw [p12, p22]; omega
  have h2 : (2 : Nat) ^ 22 * a ||| (2 ^ 12 * b + c) = 2 ^ 22 * a + (2 ^ 12 * b + c) :=
    (Nat.mul_add_lt_is_or hlt a).symm
  calc vkPackVersion a b c
      = (2 ^ 22 * a) ||| ((2 ^ 12 * b) ||| c) := by
        unfold vkPackVersion
        rw [Nat.shiftLeft_eq, Nat.shiftLeft_eq, Nat.or_assoc,
          Nat.mul_comm a, Nat.mul_comm b]
    _ = (2 ^ 22 * a) ||| (2 ^ 12 * b + c) := by rw [h1]
    _ = 2 ^ 22 * a + (2 ^ 12 * b + c) := h2
    _ = 4194304 * a + 4096 * b + c := by rw [p22, p12]; ring

theorem shiftRight22_eq (x : Nat) : x >>> 22 = x / 4194304 := by
  rw [Nat.shiftRight_eq_div_pow]

theorem shiftRight12_eq (x : Nat) : x >>> 12 = x / 4096 := by
  rw [Nat.shiftRight_eq_div_pow]

theorem and_0x3FF_eq (x : Nat) : x &&& 0x3FF = x % 1024 := by
  have h := Nat.and_pow_two_sub_one_eq_mod x 10
  norm_num at h
  exact h

theorem and_0xFFF_eq (x : Nat) : x &&& 0xFFF = x % 4096 := by
  have h := Nat.and_pow_two_sub_one_eq_mod x 12
  norm_num at h
  exact h

/-- C8: for every major below 2^10, minor below 2^10 and patch below
2^12, the decomposition macros `VK_API_MAJOR_VERSION`,
`VK_API_MINOR_VERSION` and `VK_API_PATCH_VERSION` applied to the packed
value `(major<<22)|(minor<<12)|patch` recover exactly
`(major, minor, patch)`. -/
theorem vk_api_version_roundtrip (major minor patch : Nat)
    (h1 : major < 2 ^ 10) (h2 : minor < 2 ^ 10) (h3 : patch < 2 ^ 12) :
    VK_API_MAJOR_VERSION (vkPackVersion major minor patch) = major ∧
    VK_API_MINOR_VERSION (vkPackVersion major minor patch) = minor ∧
    VK_API_PATCH_VERSION (vkPackVersion major minor patch) = patch := by
  have h1n : major < 1024 := by omega
  have h2n : minor < 1024 := by omega
  have h3n : patch < 4096 := by omega
  unfold VK_API_MAJOR_VERSION VK_API_MINOR_VERSION VK_API_PATCH_VERSION
  rw [vkPackVersion_eq_add major minor patch h2n h3n,
    shiftRight22_eq, shiftRight12_eq, and_0x3FF_eq, and_0x3FF_eq, and_0xFFF_eq]
  refine ⟨?_, ?_, ?_⟩ <;> omega

/-- C8 witness: the roundtrip at the boundary values: maximal 10-bit
major, zero minor, maximal 12-bit patch. -/
theorem vk_api_version_roundtrip_witness :
    1023 < 2 ^ 10 ∧ 0 < 2 ^ 10 ∧ 4095 < 2 ^ 12 ∧
    (VK_API_MAJOR_VERSION (vkPackVersion 1023 0 4095) = 1023 ∧
     VK_API_MINOR_VERSION (vkPackVersion 1023 0 4095) = 0 ∧
     VK_API_PATCH_VERSION (vkPackVersion 1023 0 4095) = 4095) :=
  ⟨by norm_num, by norm_num, by norm_num,
   vk_api_version_roundtrip 1023 0 4095 (by norm_num) (by norm_num) (by norm_num)⟩

/-! ## Trace predicates and concrete driver environments -/

/-- Successful heap allocations. -/
def isAlloc : Event → Bool
  | Event.evMalloc _ ok => ok
  | _ => false

/-- Frees (the sources only ever free non-null pointers, under a guard). -/
def isFree : Event → Bool
  | Event.evFree _ => true
  | _ => false

/-- Successful instance creations. -/
def isInstAcq : Event → Bool
  | Event.evCreateInstance _ VkResult.VK_SUCCESS => true
  | _ => false

/-- Instance destroys executed on a valid (non-null) handle. -/
def isInstRel : Event → Bool
  | Event.evDestroyInstance (some _) => true
  | _ => false

/-- Successful logical-device creations. -/
def isDevAcq : Event → Bool
  | Event.evCreateDevice _ VkResult.VK_SUCCESS => true
  | _ => false

/-- Device destroys executed on a valid (non-null) handle. -/
def isDevRel : Event → Bool
  | Event.evDestroyDevice (some _) => true
  | _ => false

/-- A trace is resource-balanced when every successful allocation has a
matching free, every successfully created instance a matching destroy of
a valid handle, and likewise for the logical device. -/
def balanced (tr : List Event) : Bool :=
  (tr.countP isAlloc == tr.countP isFree) &&
  (tr.countP isInstAcq == tr.countP isInstRel) &&
  (tr.countP isDevAcq == tr.countP isDevRel)

/-- A fully cooperative driver: every call succeeds, one physical device
is present, and it has two queue families. -/
def envAllOk : Env :=
  { createInstanceRes := VkResult.VK_SUCCESS
    enumCountRes := VkResult.VK_SUCCESS
    enumCount := 1
    devMallocOk := true
    enumFillRes := VkResult.VK_SUCCESS
    enumFillCount := 1
    qfEnv := fun _ => { qfCount1 := 2, qfMallocOk := true, qfCount2 := 2 }
    createDeviceRes := VkResult.VK_SUCCESS }

/-- A driver that succeeds at the count query but reports zero devices. -/
def envNoDevices : Env := { envAllOk with enumCount := 0 }

/-- A driver whose physical-device count query fails fatally. -/
def envEnumFail : Env :=
  { envAllOk with enumCountRes := VkResult.VK_ERROR_INITIALIZATION_FAILED }

/-- A driver where the fill query of the device enumeration fails after
the device array was already allocated. -/
def envFillFail : Env :=
  { envAllOk with enumFillRes := VkResult.VK_ERROR_INITIALIZATION_FAILED }

/-- A device reporting zero queue families, with a zero-byte `malloc`
that returns null. -/
def qfZeroFail : QFEnv := { qfCount1 := 0, qfMallocOk := false, qfCount2 := 0 }

/-- A device reporting zero queue families, with a zero-byte `malloc`
that returns a non-null pointer. -/
def qfZeroOk : QFEnv := { qfCount1 := 0, qfMallocOk := true, qfCount2 := 0 }

/-! ## C3: a zero device count is returned as success -/

/-- C3: when the count-only query succeeded and reported zero physical
devices, `createPhysicalDevicesArray` logs the error message but returns
the prior success code from the count-query call — `VK_SUCCESS`, the
very code of a successful run — so the caller cannot distinguish the
no-devices condition from success by the returned status code. -/
theorem zero_devices_returns_success (env : Env)
    (h1 : env.enumCountRes = VkResult.VK_SUCCESS) (h2 : env.enumCount = 0) :
    (createPhysicalDevicesArray env).res = VkResult.VK_SUCCESS ∧
    (createPhysicalDevicesArray env).res = env.enumCountRes ∧
    Event.evLogNoDevices ∈ (createPhysicalDevicesArray env).trace := by
  simp [createPhysicalDevicesArray, h1, h2]

/-- C3 witness: the concrete zero-device driver. -/
theorem zero_devices_returns_success_witness :
    envNoDevices.enumCountRes = VkResult.VK_SUCCESS ∧ envNoDevices.enumCount = 0 ∧
    ((createPhysicalDevicesArray envNoDevices).res = VkResult.VK_SUCCESS ∧
     (createPhysicalDevicesArray envNoDevices).res = envNoDevices.enumCountRes ∧
     Event.evLogNoDevices ∈ (createPhysicalDevicesArray envNoDevices).trace) :=
  ⟨rfl, rfl, zero_devices_returns_success envNoDevices rfl rfl⟩

/-! ## C7: result characterization of getQueueFamilyProperites -/

/-- C7: `getQueueFamilyProperites` returns `VK_ERROR_OUT_OF_HOST_MEMORY`
exactly when its buffer allocation fails and `VK_SUCCESS` in every other
case; the phase-1 count-only query has no failure path, so the function
proceeds to allocate (and, on allocation success, query again) in every
run, and never propagates any other native error. -/
theorem qf_result_characterization (qf : QFEnv) :
    (getQueueFamilyProperites qf).res =
      (if qf.qfMallocOk then VkResult.VK_SUCCESS
       else VkResult.VK_ERROR_OUT_OF_HOST_MEMORY) ∧
    Event.evQueueFamQuery false ∈ (getQueueFamilyProperites qf).trace ∧
    Event.evMalloc qf.qfCount1 qf.qfMallocOk ∈ (getQueueFamilyProperites qf).trace := by
  cases h : qf.qfMallocOk <;> simp [getQueueFamilyProperites, h]

/-! ## C10: a zero queue-family count is not a distinct condition -/

/-- C10: on a zero queue-family count the function still attempts a
zero-byte allocation; whenever that allocation returns null the function
returns `VK_ERROR_OUT_OF_HOST_MEMORY` even though no buffer contents
were needed; and the zero count is not distinguished at the interface:
the status code is the same as for any non-zero count with the same
allocation outcome. -/
theorem qf_zero_count_not_distinct (qf : QFEnv) (h0 : qf.qfCount1 = 0) :
    Event.evMalloc 0 qf.qfMallocOk ∈ (getQueueFamilyProperites qf).trace ∧
    (qf.qfMallocOk = false →
      (getQueueFamilyProperites qf).res = VkResult.VK_ERROR_OUT_OF_HOST_MEMORY) ∧
    (getQueueFamilyProperites qf).res =
      (getQueueFamilyProperites { qf with qfCount1 := qf.qfCount1 + 1 }).res := by
  cases h : qf.qfMallocOk <;> simp [getQueueFamilyProperites, h, h0]

/-- C10 witness: zero queue families and a null zero-byte allocation. -/
theorem qf_zero_count_not_distinct_witness :
    qfZeroFail.qfCount1 = 0 ∧
    (Event.evMalloc 0 qfZeroFail.qfMallocOk ∈ (getQueueFamilyProperites qfZeroFail).trace ∧
     (qfZeroFail.qfMallocOk = false →
       (getQueueFamilyProperites qfZeroFail).res = VkResult.VK_ERROR_OUT_OF_HOST_MEMORY) ∧
     (getQueueFamilyProperites qfZeroFail).res =
       (getQueueFamilyProperites { qfZeroFail with qfCount1 := qfZeroFail.qfCount1 + 1 }).res) :=
  ⟨rfl, qf_zero_count_not_distinct qfZeroFail rfl⟩

/-! ## C6: count-then-fill sizing -/

/-- C6 (amended): every heap array obtained through a count-then-fill
enumeration has exactly as many entries as the count reported by the
first (count-only) call; and the physical-device enumerator, on a zero
count, attempts no allocation and reports the no-devices condition.
The queue-family enumerator, however, attempts a (zero-byte) allocation
even on a zero count — see the counterexample. -/
theorem count_then_fill_sizing (env envZ : Env) (qf : QFEnv) (n m : Nat)
    (ha : (createPhysicalDevicesArray env).arr = some n)
    (hb : (getQueueFamilyProperites qf).arr = some m)
    (hz1 : envZ.enumCountRes = VkResult.VK_SUCCESS) (hz2 : envZ.enumCount = 0) :
    n = env.enumCount ∧ m = qf.qfCount1 ∧
    (∀ k ok, Event.evMalloc k ok ∉ (createPhysicalDevicesArray envZ).trace) ∧
    Event.evLogNoDevices ∈ (createPhysicalDevicesArray envZ).trace := by
  refine ⟨?_, ?_, ?_, ?_⟩
  · by_cases h1 : env.enumCountRes = VkResult.VK_SUCCESS
    · by_cases h2 : env.enumCount = 0
      · simp [createPhysicalDevicesArray, h1, h2] at ha
      · cases h3 : env.devMallocOk
        · simp [createPhysicalDevicesArray, h1, h2, h3] at ha
        · simp [createPhysicalDevicesArray, h1, h2, h3] at ha
          omega
    · simp [createPhysicalDevicesArray, h1] at ha
  · cases h3 : qf.qfMallocOk
    · simp [getQueueFamilyProperites, h3] at hb
    · simp [getQueueFamilyProperites, h3] at hb
      omega
  · intro k ok
    simp [createPhysicalDevicesArray, hz1, hz2]
  · simp [createPhysicalDevicesArray, hz1, hz2]

/-- C6 witness: a successful one-device enumeration, a successful
two-family queue query, and the zero-device driver. -/
theorem count_then_fill_sizing_witness :
    (createPhysicalDevicesArray envAllOk).arr = some 1 ∧
    (getQueueFamilyProperites (envAllOk.qfEnv 0)).arr = some 2 ∧
    envNoDevices.enumCountRes = VkResult.VK_SUCCESS ∧ envNoDevices.enumCount = 0 ∧
    (1 = envAllOk.enumCount ∧ 2 = (envAllOk.qfEnv 0).qfCount1 ∧
     (∀ k ok, Event.evMalloc k ok ∉ (createPhysicalDevicesArray envNoDevices).trace) ∧
     Event.evLogNoDevices ∈ (createPhysicalDevicesArray envNoDevices).trace) :=
  ⟨rfl, rfl, rfl, rfl,
   count_then_fill_sizing envAllOk envNoDevices (envAllOk.qfEnv 0) 1 2 rfl rfl rfl rfl⟩

/-- C6 counterexample: with a zero queue-family count,
`getQueueFamilyProperites` still attempts a (zero-byte) allocation and
reports no condition, refuting "when N == 0, no allocation is attempted
and the no-devices condition is reported" for this count-then-fill
enumeration. -/
theorem count_then_fill_zero_alloc_cex :
    qfZeroOk.qfCount1 = 0 ∧
    Event.evMalloc 0 true ∈ (getQueueFamilyProperites qfZeroOk).trace ∧
    Event.evLogNoDevices ∉ (getQueueFamilyProperites qfZeroOk).trace := by
  decide

/-! ## C1: exit codes -/

/-- C1 (amended): whenever a tutorial exits, its exit code is 0 or -1.
Exit code -1 occurs exactly on instance-creation failure — plus, in
tutorial01 only, on device-enumeration failure.  Tutorials 02 and 03
return 0 from their cleanup path even after a fatal enumeration (or
device-creation) failure; and tutorial03's zero-device run (count query
succeeds reporting zero devices) does not exit at all: it crashes
dereferencing the null device array before reaching cleanup. -/
theorem exit_codes (env : Env) :
    ((tut00_main env).outcome = RunOutcome.exited 0 ∨
     (tut00_main env).outcome = RunOutcome.exited (-1)) ∧
    ((tut01_main env).outcome = RunOutcome.exited 0 ∨
     (tut01_main env).outcome = RunOutcome.exited (-1)) ∧
    ((tut02_main env).outcome = RunOutcome.exited 0 ∨
     (tut02_main env).outcome = RunOutcome.exited (-1)) ∧
    ((tut03_main env).outcome = RunOutcome.exited 0 ∨
     (tut03_main env).outcome = RunOutcome.exited (-1) ∨
     (tut03_main env).outcome = RunOutcome.crashedNullDeref) ∧
    ((tut00_main env).outcome = RunOutcome.exited (-1) ↔
      env.createInstanceRes ≠ VkResult.VK_SUCCESS) ∧
    ((tut01_main env).outcome = RunOutcome.exited (-1) ↔
      (env.createInstanceRes ≠ VkResult.VK_SUCCESS ∨
       (createPhysicalDevicesArray env).res ≠ VkResult.VK_SUCCESS)) ∧
    ((tut02_main env).outcome = RunOutcome.exited (-1) ↔
      env.createInstanceRes ≠ VkResult.VK_SUCCESS) ∧
    ((tut03_main env).outcome = RunOutcome.exited (-1) ↔
      env.createInstanceRes ≠ VkResult.VK_SUCCESS) ∧
    ((tut03_main env).outcome = RunOutcome.crashedNullDeref ↔
      (env.createInstanceRes = VkResult.VK_SUCCESS ∧
       env.enumCountRes = VkResult.VK_SUCCESS ∧ env.enumCount = 0)) := by
  by_cases h1 : env.createInstanceRes = VkResult.VK_SUCCESS
  · by_cases hc : env.enumCountRes = VkResult.VK_SUCCESS
    · by_cases h0 : env.enumCount = 0
      · simp [tut00_main, tut01_main, tut02_main, tut03_main, createInstance,
          createPhysicalDevicesArray, h1, hc, h0]
      · cases hm : env.devMallocOk
        · simp [tut00_main, tut01_main, tut02_main, tut03_main, createInstance,
            createPhysicalDevicesArray, h1, hc, h0, hm]
        · by_cases hf : env.enumFillRes = VkResult.VK_SUCCESS <;>
            simp [tut00_main, tut01_main, tut02_main, tut03_main, createInstance,
              createPhysicalDevicesArray, h1, hc, h0, hm, hf]
    · simp [tut00_main, tut01_main, tut02_main, tut03_main, createInstance,
        createPhysicalDevicesArray, h1, hc]
  · simp [tut00_main, tut01_main, tut02_main, tut03_main, createInstance, h1]

/-- C1 counterexample: with a fatal enumeration failure, tutorial02's
process exits 0, not -1. -/
theorem exit_codes_cex :
    envEnumFail.createInstanceRes = VkResult.VK_SUCCESS ∧
    envEnumFail.enumCountRes = VkResult.VK_ERROR_INITIALIZATION_FAILED ∧
    (tut02_main envEnumFail).outcome = RunOutcome.exited 0 := by
  decide

/-! ## Helper equations for the trace predicates -/

theorem isInstAcq_eq (i : VkInstanceCreateInfo) (r : VkResult) :
    isInstAcq (Event.evCreateInstance i r) = decide (r = VkResult.VK_SUCCESS) := by
  cases r <;> rfl

theorem isDevAcq_eq (i : VkDeviceCreateInfo) (r : VkResult) :
    isDevAcq (Event.evCreateDevice i r) = decide (r = VkResult.VK_SUCCESS) := by
  cases r <;> rfl

theorem isInstRel_eq (o : Option Unit) :
    isInstRel (Event.evDestroyInstance o) = o.isSome := by
  cases o <;> rfl

theorem isDevRel_eq (o : Option Unit) :
    isDevRel (Event.evDestroyDevice o) = o.isSome := by
  cases o <;> rfl

/-- The queue-family printing loop acquires and releases in each
iteration: its allocations and frees balance, and it never touches the
instance or device handles. -/
theorem printQF_counts (q : Nat → QFEnv) (n : Nat) :
    (printQueueFamilyInfo q n).countP isAlloc = (printQueueFamilyInfo q n).countP isFree ∧
    (printQueueFamilyInfo q n).countP isInstAcq = 0 ∧
    (printQueueFamilyInfo q n).countP isInstRel = 0 ∧
    (printQueueFamilyInfo q n).countP isDevAcq = 0 ∧
    (printQueueFamilyInfo q n).countP isDevRel = 0 := by
  induction n with
  | zero => simp [printQueueFamilyInfo]
  | succ k ih =>
      obtain ⟨ih1, ih2, ih3, ih4, ih5⟩ := ih
      cases h : (q k).qfMallocOk <;>
        simp [printQueueFamilyInfo, getQueueFamilyProperites, freeIfSome, h,
          List.countP_append, List.countP_cons, isAlloc, isFree, isInstAcq,
          isInstRel, isDevAcq, isDevRel, ih1, ih2, ih3, ih4, ih5]

theorem balanced_tut00 (env : Env) : balanced (tut00_main env).trace = true := by
  by_cases h1 : env.createInstanceRes = VkResult.VK_SUCCESS <;>
    simp [balanced, tut00_main, h1, List.countP_append, List.countP_cons,
      List.countP_nil, isAlloc, isFree, isInstAcq_eq, isInstRel_eq, isDevAcq_eq,
      isDevRel_eq, isInstAcq, isInstRel, isDevAcq, isDevRel]

theorem balanced_tut01 (env : Env)
    (h : env.createInstanceRes ≠ VkResult.VK_SUCCESS ∨
         (createPhysicalDevicesArray env).res = VkResult.VK_SUCCESS) :
    balanced (tut01_main env).trace = true := by
  by_cases h1 : env.createInstanceRes = VkResult.VK_SUCCESS
  · have he : (createPhysicalDevicesArray env).res = VkResult.VK_SUCCESS := by
      rcases h with h2 | h2
      · exact absurd h1 h2
      · exact h2
    by_cases hc : env.enumCountRes = VkResult.VK_SUCCESS
    · by_cases h0 : env.enumCount = 0
      · simp [balanced, tut01_main, createInstance, createPhysicalDevicesArray,
          freeIfSome, h1, hc, h0, List.countP_append, List.countP_cons,
          List.countP_nil, isAlloc, isFree, isInstAcq_eq, isInstRel_eq,
          isDevAcq_eq, isDevRel_eq, isInstAcq, isInstRel, isDevAcq, isDevRel]
      · cases hm : env.devMallocOk
        · simp [createPhysicalDevicesArray, hc, h0, hm] at he
        · have hf : env.enumFillRes = VkResult.VK_SUCCESS := by
            simpa [createPhysicalDevicesArray, hc, h0, hm] using he
          simp [balanced, tut01_main, createInstance, createPhysicalDevicesArray,
            freeIfSome, h1, hc, h0, hm, hf, List.countP_append, List.countP_cons,
            List.countP_nil, isAlloc, isFree, isInstAcq_eq, isInstRel_eq,
            isDevAcq_eq, isDevRel_eq, isInstAcq, isInstRel, isDevAcq, isDevRel]
    · simp [createPhysicalDevicesArray, hc] at he
  · simp [balanced, tut01_main, createInstance, h1, List.countP_append,
      List.countP_cons, List.countP_nil, isAlloc, isFree, isInstAcq_eq,
      isInstRel_eq, isDevAcq_eq, isDevRel_eq, isInstAcq, isInstRel, isDevAcq,
      isDevRel]

theorem balanced_tut02 (env : Env) : balanced (tut02_main env).trace = true := by
  by_cases h1 : env.createInstanceRes = VkResult.VK_SUCCESS
  · by_cases hc : env.enumCountRes = VkResult.VK_SUCCESS
    · by_cases h0 : env.enumCount = 0
      · simp [balanced, tut02_main, tut02_cleanup, createInstance,
          createPhysicalDevicesArray, printQueueFamilyInfo, freeIfSome, h1, hc,
          h0, List.countP_append, List.countP_cons, List.countP_nil, isAlloc,
          isFree, isInstAcq_eq, isInstRel_eq, isDevAcq_eq, isDevRel_eq,
          isInstAcq, isInstRel, isDevAcq, isDevRel]
      · cases hm : env.devMallocOk
        · simp [balanced, tut02_main, tut02_cleanup, createInstance,
            createPhysicalDevicesArray, freeIfSome, h1, hc, h0, hm,
            List.countP_append, List.countP_cons, List.countP_nil, isAlloc,
            isFree, isInstAcq_eq, isInstRel_eq, isDevAcq_eq, isDevRel_eq,
            isInstAcq, isInstRel, isDevAcq, isDevRel]
        · by_cases hf : env.enumFillRes = VkResult.VK_SUCCESS
          · obtain ⟨p1, p2, p3, p4, p5⟩ := printQF_counts env.qfEnv env.enumFillCount
            simp [balanced, tut02_main, tut02_cleanup, createInstance,
              createPhysicalDevicesArray, freeIfSome, h1, hc, h0, hm, hf,
              List.countP_append, List.countP_cons, List.countP_nil, isAlloc,
              isFree, isInstAcq_eq, isInstRel_eq, isDevAcq_eq, isDevRel_eq,
              isInstAcq, isInstRel, isDevAcq, isDevRel, p1, p2, p3, p4, p5]
          · simp [balanced, tut02_main, tut02_cleanup, createInstance,
              createPhysicalDevicesArray, freeIfSome, h1, hc, h0, hm, hf,
              List.countP_append, List.countP_cons, List.countP_nil, isAlloc,
              isFree, isInstAcq_eq, isInstRel_eq, isDevAcq_eq, isDevRel_eq,
              isInstAcq, isInstRel, isDevAcq, isDevRel]
    · simp [balanced, tut02_main, tut02_cleanup, createInstance,
        createPhysicalDevicesArray, freeIfSome, h1, hc, List.countP_append,
        List.countP_cons, List.countP_nil, isAlloc, isFree, isInstAcq_eq,
        isInstRel_eq, isDevAcq_eq, isDevRel_eq, isInstAcq, isInstRel, isDevAcq,
        isDevRel]
  · simp [balanced, tut02_main, createInstance, h1, List.countP_append,
      List.countP_cons, List.countP_nil, isAlloc, isFree, isInstAcq_eq,
      isInstRel_eq, isDevAcq_eq, isDevRel_eq, isInstAcq, isInstRel, isDevAcq,
      isDevRel]

/-- `createDevice` is internally balanced: its scoped queue-family array
is freed before it returns, it never touches the instance, and it
acquires the device exactly when it hands back a valid handle. -/
theorem createDevice_counts (env : Env) :
    ((createDevice env).trace.countP isAlloc = (createDevice env).trace.countP isFree) ∧
    ((createDevice env).trace.countP isInstAcq = 0) ∧
    ((createDevice env).trace.countP isInstRel = 0) ∧
    ((createDevice env).trace.countP isDevAcq =
      if (createDevice env).handle.isSome then 1 else 0) ∧
    ((createDevice env).trace.countP isDevRel = 0) := by
  cases hqf : (env.qfEnv 0).qfMallocOk
  · simp [createDevice, getQueueFamilyProperites, freeIfSome, hqf,
      List.countP_append, List.countP_cons, List.countP_nil, isAlloc, isFree,
      isInstAcq_eq, isInstRel_eq, isDevAcq_eq, isDevRel_eq, isInstAcq,
      isInstRel, isDevAcq, isDevRel]
  · by_cases hd : env.createDeviceRes = VkResult.VK_SUCCESS <;>
      simp [createDevice, getQueueFamilyProperites, freeIfSome, hqf, hd,
        List.countP_append, List.countP_cons, List.countP_nil, isAlloc, isFree,
        isInstAcq_eq, isInstRel_eq, isDevAcq_eq, isDevRel_eq, isInstAcq,
        isInstRel, isDevAcq, isDevRel]

theorem balanced_tut03 (env : Env)
    (h : (tut03_main env).outcome ≠ RunOutcome.crashedNullDeref) :
    balanced (tut03_main env).trace = true := by
  obtain ⟨d1, d2, d3, d4, d5⟩ := createDevice_counts env
  by_cases h1 : env.createInstanceRes = VkResult.VK_SUCCESS
  · by_cases hc : env.enumCountRes = VkResult.VK_SUCCESS
    · by_cases h0 : env.enumCount = 0
      · exact absurd (by
          simp [tut03_main, createInstance, createPhysicalDevicesArray, h1, hc, h0]) h
      · cases hm : env.devMallocOk
        · simp [balanced, tut03_main, tut03_cleanup, createInstance,
            createPhysicalDevicesArray, freeIfSome, h1, hc, h0, hm,
            List.countP_append, List.countP_cons, List.countP_nil, isAlloc,
            isFree, isInstAcq_eq, isInstRel_eq, isDevAcq_eq, isDevRel_eq,
            isInstAcq, isInstRel, isDevAcq, isDevRel]
        · by_cases hf : env.enumFillRes = VkResult.VK_SUCCESS
          · cases hh : (createDevice env).handle <;>
              simp [balanced, tut03_main, tut03_cleanup, createInstance,
                createPhysicalDevicesArray, freeIfSome, h1, hc, h0, hm, hf,
                List.countP_append, List.countP_cons, List.countP_nil, isAlloc,
                isFree, isInstAcq_eq, isInstRel_eq, isDevAcq_eq, isDevRel_eq,
                isInstAcq, isInstRel, isDevAcq, isDevRel, d1, d2, d3, d4, d5, hh]
          · simp [balanced, tut03_main, tut03_cleanup, createInstance,
              createPhysicalDevicesArray, freeIfSome, h1, hc, h0, hm, hf,
              List.countP_append, List.countP_cons, List.countP_nil, isAlloc,
              isFree, isInstAcq_eq, isInstRel_eq, isDevAcq_eq, isDevRel_eq,
              isInstAcq, isInstRel, isDevAcq, isDevRel]
    · simp [balanced, tut03_main, tut03_cleanup, createInstance,
        createPhysicalDevicesArray, freeIfSome, h1, hc, List.countP_append,
        List.countP_cons, List.countP_nil, isAlloc, isFree, isInstAcq_eq,
        isInstRel_eq, isDevAcq_eq, isDevRel_eq, isInstAcq, isInstRel, isDevAcq,
        isDevRel]
  · simp [balanced, tut03_main, createInstance, h1, List.countP_append,
      List.countP_cons, List.countP_nil, isAlloc, isFree, isInstAcq_eq,
      isInstRel_eq, isDevAcq_eq, isDevRel_eq, isInstAcq, isInstRel, isDevAcq,
      isDevRel]

/-! ## C2: release of already-acquired resources -/

/-- C2 (amended): in tutorials 00 and 02, every execution releases every
already-acquired resource before the process exits (allocations match
frees, successful instance and device creations match destroys of valid
handles) — enumeration failures fall through to the teardown path.
Tutorial03 does the same on every run that exits — enumeration and
device-creation failures fall through to `cleanup:` — but its
zero-device run crashes on the null device-array dereference before
teardown, with the instance still acquired.  In tutorial01, the release
only holds when the device enumeration does not fail (or instance
creation already failed): a failing enumeration is an early `return -1`
that skips teardown — see the counterexample. -/
theorem already_acquired_released (env : Env) :
    balanced (tut00_main env).trace = true ∧
    balanced (tut02_main env).trace = true ∧
    ((tut03_main env).outcome ≠ RunOutcome.crashedNullDeref →
      balanced (tut03_main env).trace = true) ∧
    (env.createInstanceRes ≠ VkResult.VK_SUCCESS ∨
     (createPhysicalDevicesArray env).res = VkResult.VK_SUCCESS →
      balanced (tut01_main env).trace = true) :=
  ⟨balanced_tut00 env, balanced_tut02 env,
   fun h => balanced_tut03 env h,
   fun h => balanced_tut01 env h⟩

/-- C2 witness: the fully cooperative driver. -/
theorem already_acquired_released_witness :
    balanced (tut03_main envAllOk).trace = true ∧
    balanced (tut01_main envAllOk).trace = true :=
  ⟨(already_acquired_released envAllOk).2.2.1 (by decide),
   (already_acquired_released envAllOk).2.2.2 (Or.inr (by decide))⟩

/-- C2 counterexample: in tutorial01, when the fill query fails after the
instance and the device array were both acquired, `main` exits -1
without releasing either: the trace holds one successful instance
creation but no instance destroy, and one successful allocation but no
free. -/
theorem already_acquired_released_cex :
    (tut01_main envFillFail).outcome = RunOutcome.exited (-1) ∧
    (tut01_main envFillFail).trace.countP isInstAcq = 1 ∧
    (tut01_main envFillFail).trace.countP isInstRel = 0 ∧
    (tut01_main envFillFail).trace.countP isAlloc = 1 ∧
    (tut01_main envFillFail).trace.countP isFree = 0 := by
  decide

/-! ## C4: teardown on partially-initialized state -/

/-- The queue-family printing loop contains no instance/device creation
or destruction events of any kind. -/
theorem printQF_skeleton (q : Nat → QFEnv) (n : Nat) :
    (∀ o : Option Unit, Event.evDestroyInstance o ∉ printQueueFamilyInfo q n) ∧
    (∀ i r, Event.evCreateInstance i r ∉ printQueueFamilyInfo q n) ∧
    (∀ i r, Event.evCreateDevice i r ∉ printQueueFamilyInfo q n) ∧
    (∀ o : Option Unit, Event.evDestroyDevice o ∉ printQueueFamilyInfo q n) := by
  induction n with
  | zero => simp [printQueueFamilyInfo]
  | succ k ih =>
      obtain ⟨ih1, ih2, ih3, ih4⟩ := ih
      refine ⟨fun o => ?_, fun i r => ?_, fun i r => ?_, fun o => ?_⟩ <;>
        cases hqf : (q k).qfMallocOk <;>
          simp [printQueueFamilyInfo, getQueueFamilyProperites, freeIfSome, hqf,
            ih1 _, ih2 _ _, ih3 _ _, ih4 _]

theorem no_null_instance_destroy_tut00 (env : Env) :
    Event.evDestroyInstance none ∉ (tut00_main env).trace := by
  by_cases h1 : env.createInstanceRes = VkResult.VK_SUCCESS <;>
    simp [tut00_main, h1]

/-- The physical-device enumeration trace contains only count-query,
log, malloc and fill-query events. -/
theorem enum_trace_skeleton (env : Env) :
    (∀ o : Option Unit, Event.evDestroyInstance o ∉ (createPhysicalDevicesArray env).trace) ∧
    (∀ i r, Event.evCreateInstance i r ∉ (createPhysicalDevicesArray env).trace) ∧
    (∀ i r, Event.evCreateDevice i r ∉ (createPhysicalDevicesArray env).trace) ∧
    (∀ o : Option Unit, Event.evDestroyDevice o ∉ (createPhysicalDevicesArray env).trace) ∧
    (∀ c, Event.evFree c ∉ (createPhysicalDevicesArray env).trace) := by
  refine ⟨fun o => ?_, fun i r => ?_, fun i r => ?_, fun o => ?_, fun c => ?_⟩ <;>
    by_cases hc : env.enumCountRes = VkResult.VK_SUCCESS <;>
      by_cases h0 : env.enumCount = 0 <;>
        cases hm : env.devMallocOk <;>
          simp [createPhysicalDevicesArray, hc, h0, hm]

/-- The `createDevice` trace contains no instance events and no device
destroys, and its only device-creation event carries `mkDevInfo` and the
driver's status. -/
theorem createDevice_skeleton (env : Env) :
    (∀ o : Option Unit, Event.evDestroyInstance o ∉ (createDevice env).trace) ∧
    (∀ i r, Event.evCreateInstance i r ∉ (createDevice env).trace) ∧
    (∀ o : Option Unit, Event.evDestroyDevice o ∉ (createDevice env).trace) ∧
    (∀ i r, Event.evCreateDevice i r ∈ (createDevice env).trace →
      i = mkDevInfo ∧ r = env.createDeviceRes) := by
  refine ⟨fun o => ?_, fun i r => ?_, fun o => ?_, fun i r => ?_⟩ <;>
    cases hqf : (env.qfEnv 0).qfMallocOk <;>
      simp [createDevice, getQueueFamilyProperites, freeIfSome, hqf]

theorem no_null_instance_destroy_tut01 (env : Env) :
    Event.evDestroyInstance none ∉ (tut01_main env).trace := by
  have hsk := (enum_trace_skeleton env).1
  by_cases h1 : env.createInstanceRes = VkResult.VK_SUCCESS
  · by_cases he : (createPhysicalDevicesArray env).res = VkResult.VK_SUCCESS
    · cases ha : (createPhysicalDevicesArray env).arr <;>
        simp [tut01_main, createInstance, freeIfSome, h1, he, ha, hsk none]
    · simp [tut01_main, createInstance, h1, he, hsk none]
  · simp [tut01_main, createInstance, h1]

theorem no_null_instance_destroy_tut02 (env : Env) :
    Event.evDestroyInstance none ∉ (tut02_main env).trace := by
  have hsk := (enum_trace_skeleton env).1
  have hp := (printQF_skeleton env.qfEnv (createPhysicalDevicesArray env).count).1
  by_cases h1 : env.createInstanceRes = VkResult.VK_SUCCESS
  · by_cases he : (createPhysicalDevicesArray env).res = VkResult.VK_SUCCESS <;>
      cases ha : (createPhysicalDevicesArray env).arr <;>
        simp [tut02_main, tut02_cleanup, createInstance, freeIfSome, h1, he, ha,
          hsk none, hp none]
  · simp [tut02_main, createInstance, h1]

theorem no_null_instance_destroy_tut03 (env : Env) :
    Event.evDestroyInstance none ∉ (tut03_main env).trace := by
  have hsk := (enum_trace_skeleton env).1
  have hd := (createDevice_skeleton env).1
  by_cases h1 : env.createInstanceRes = VkResult.VK_SUCCESS
  · by_cases he : (createPhysicalDevicesArray env).res = VkResult.VK_SUCCESS <;>
      cases ha : (createPhysicalDevicesArray env).arr <;>
        simp [tut03_main, tut03_cleanup, createInstance, freeIfSome, h1, he, ha,
          hsk none, hd none]
  · simp [tut03_main, createInstance, h1]

/-- Unfolds the balance check into its three count equations. -/
theorem balanced_iff (tr : List Event) :
    balanced tr = true ↔
      (tr.countP isAlloc = tr.countP isFree ∧
       tr.countP isInstAcq = tr.countP isInstRel ∧
       tr.countP isDevAcq = tr.countP isDevRel) := by
  simp [balanced, Bool.and_eq_true, and_assoc]

/-- Tutorial01 never frees more than it allocated, even on the leaking
early-return path. -/
theorem free_le_alloc_tut01 (env : Env) :
    (tut01_main env).trace.countP isFree ≤ (tut01_main env).trace.countP isAlloc := by
  by_cases h1 : env.createInstanceRes = VkResult.VK_SUCCESS
  · by_cases hc : env.enumCountRes = VkResult.VK_SUCCESS
    · by_cases h0 : env.enumCount = 0
      · simp [tut01_main, createInstance, createPhysicalDevicesArray, freeIfSome,
          h1, hc, h0, List.countP_append, List.countP_cons, List.countP_nil,
          isAlloc, isFree]
      · cases hm : env.devMallocOk
        · simp [tut01_main, createInstance, createPhysicalDevicesArray,
            freeIfSome, h1, hc, h0, hm, List.countP_append, List.countP_cons,
            List.countP_nil, isAlloc, isFree]
        · by_cases hf : env.enumFillRes = VkResult.VK_SUCCESS <;>
            simp [tut01_main, createInstance, createPhysicalDevicesArray,
              freeIfSome, h1, hc, h0, hm, hf, List.countP_append,
              List.countP_cons, List.countP_nil, isAlloc, isFree]
    · simp [tut01_main, createInstance, createPhysicalDevicesArray, h1, hc,
        List.countP_append, List.countP_cons, List.countP_nil, isAlloc, isFree]
  · simp [tut01_main, createInstance, h1, List.countP_cons, List.countP_nil,
      isAlloc, isFree]

/-- Tutorial03 never frees more than it allocated, also on the
crashing zero-device path (which allocates and frees nothing). -/
theorem free_le_alloc_tut03 (env : Env) :
    (tut03_main env).trace.countP isFree ≤ (tut03_main env).trace.countP isAlloc := by
  obtain ⟨d1, d2, d3, d4, d5⟩ := createDevice_counts env
  by_cases h1 : env.createInstanceRes = VkResult.VK_SUCCESS
  · by_cases hc : env.enumCountRes = VkResult.VK_SUCCESS
    · by_cases h0 : env.enumCount = 0
      · simp [tut03_main, createInstance, createPhysicalDevicesArray, h1, hc, h0,
          List.countP_append, List.countP_cons, List.countP_nil, isAlloc, isFree]
      · cases hm : env.devMallocOk
        · simp [tut03_main, tut03_cleanup, createInstance,
            createPhysicalDevicesArray, freeIfSome, h1, hc, h0, hm,
            List.countP_append, List.countP_cons, List.countP_nil, isAlloc, isFree]
        · by_cases hf : env.enumFillRes = VkResult.VK_SUCCESS
          · simp [tut03_main, tut03_cleanup, createInstance,
              createPhysicalDevicesArray, freeIfSome, h1, hc, h0, hm, hf,
              List.countP_append, List.countP_cons, List.countP_nil, isAlloc,
              isFree, d1]
          · simp [tut03_main, tut03_cleanup, createInstance,
              createPhysicalDevicesArray, freeIfSome, h1, hc, h0, hm, hf,
              List.countP_append, List.countP_cons, List.countP_nil, isAlloc,
              isFree]
    · simp [tut03_main, tut03_cleanup, createInstance, createPhysicalDevicesArray,
        freeIfSome, h1, hc, List.countP_append, List.countP_cons,
        List.countP_nil, isAlloc, isFree]
  · simp [tut03_main, createInstance, h1, List.countP_cons, List.countP_nil,
      isAlloc, isFree]

/-- C4 (amended): invoking the teardown path on a partially-initialized
state does not fail: no tutorial ever frees a pointer it did not
successfully allocate (the frees are the guarded ones), and the
unguarded `vkDestroyInstance` always receives a validly created handle.
But not every destroy call is guarded by a null/zero check: tutorial03's
unguarded `vkDestroyDevice` executes on the null device handle whenever
device creation never happened (see the counterexample) — its safety
relies on the native API accepting a null handle, not on a guard. -/
theorem teardown_safe (env : Env) :
    ((tut00_main env).trace.countP isFree ≤ (tut00_main env).trace.countP isAlloc) ∧
    ((tut01_main env).trace.countP isFree ≤ (tut01_main env).trace.countP isAlloc) ∧
    ((tut02_main env).trace.countP isFree ≤ (tut02_main env).trace.countP isAlloc) ∧
    ((tut03_main env).trace.countP isFree ≤ (tut03_main env).trace.countP isAlloc) ∧
    Event.evDestroyInstance none ∉ (tut00_main env).trace ∧
    Event.evDestroyInstance none ∉ (tut01_main env).trace ∧
    Event.evDestroyInstance none ∉ (tut02_main env).trace ∧
    Event.evDestroyInstance none ∉ (tut03_main env).trace :=
  ⟨((balanced_iff _).1 (balanced_tut00 env)).1.ge,
   free_le_alloc_tut01 env,
   ((balanced_iff _).1 (balanced_tut02 env)).1.ge,
   free_le_alloc_tut03 env,
   no_null_instance_destroy_tut00 env,
   no_null_instance_destroy_tut01 env,
   no_null_instance_destroy_tut02 env,
   no_null_instance_destroy_tut03 env⟩

/-- C4 counterexample: when enumeration fails in tutorial03, the cleanup
path still executes `vkDestroyDevice` on the null device handle — the
destroy calls are not guarded by null/zero checks. -/
theorem teardown_unguarded_destroy_cex :
    Event.evDestroyDevice none ∈ (tut03_main envEnumFail).trace := by
  decide

/-! ## C5: teardown order -/

/-- The device handle tutorial03's `main` holds when it reaches the
`cleanup:` label: only a successful `vkCreateDevice` (reached only
after a successful enumeration that actually allocated the device
array) ever writes it; otherwise it is the initial null. -/
def tut03_dev (env : Env) : Option Unit :=
  if env.createInstanceRes = VkResult.VK_SUCCESS ∧
     (createPhysicalDevicesArray env).res = VkResult.VK_SUCCESS ∧
     (createPhysicalDevicesArray env).arr.isSome then
    (createDevice env).handle
  else none

/-- The device-array pointer tutorial03's `main` holds at `cleanup:`. -/
def tut03_arr (env : Env) : Option Nat :=
  if env.createInstanceRes = VkResult.VK_SUCCESS then
    (createPhysicalDevicesArray env).arr
  else none

/-- The device-array pointer tutorial02's `main` holds at `cleanup:`. -/
def tut02_arr (env : Env) : Option Nat :=
  if env.createInstanceRes = VkResult.VK_SUCCESS then
    (createPhysicalDevicesArray env).arr
  else none

/-- C5 (amended): on every run that reaches teardown, the cleanup
releases are a suffix of the trace — hence they come after every
acquisition of the run — and occur in strict reverse-acquisition order.
In tutorial02 (acquisition order: instance, then heap array) the suffix
is the guarded free of the device array, then the instance destroy; in
tutorial03 (acquisition order: instance, heap array, logical device) it
is the device destroy of whatever handle is held (`tut03_dev`), then
the guarded free of the device array (`tut03_arr`), then the instance
destroy.  Teardown is reached exactly on the runs in which instance
creation succeeded, except tutorial03's zero-device run, which crashes
on the null device-array dereference before any cleanup.  (The order
the claim lists — arrays freed, then the device destroyed — is not the
code's order; see the counterexample.) -/
theorem teardown_reverse_order (env : Env)
    (h : env.createInstanceRes = VkResult.VK_SUCCESS) :
    (∃ tr0, (tut02_main env).trace =
      tr0 ++ (freeIfSome (tut02_arr env)
        ++ [Event.evDestroyInstance (some ())])) ∧
    ((tut03_main env).outcome ≠ RunOutcome.crashedNullDeref →
      ∃ tr0, (tut03_main env).trace =
        tr0 ++ ([Event.evDestroyDevice (tut03_dev env)]
          ++ freeIfSome (tut03_arr env)
          ++ [Event.evDestroyInstance (some ())])) := by
  constructor
  · by_cases he : (createPhysicalDevicesArray env).res = VkResult.VK_SUCCESS
    · refine ⟨(createInstance env).trace ++ (createPhysicalDevicesArray env).trace
        ++ printQueueFamilyInfo env.qfEnv (createPhysicalDevicesArray env).count, ?_⟩
      simp [tut02_main, tut02_cleanup, tut02_arr, createInstance, h, he,
        List.append_assoc]
    · refine ⟨(createInstance env).trace ++ (createPhysicalDevicesArray env).trace, ?_⟩
      simp [tut02_main, tut02_cleanup, tut02_arr, createInstance, h, he,
        List.append_assoc]
  · intro hnc
    by_cases he : (createPhysicalDevicesArray env).res = VkResult.VK_SUCCESS
    · cases ha : (createPhysicalDevicesArray env).arr
      · exact absurd (by
          simp [tut03_main, createInstance, h, he, ha]) hnc
      · refine ⟨(createInstance env).trace ++ (createPhysicalDevicesArray env).trace
          ++ (createDevice env).trace, ?_⟩
        simp [tut03_main, tut03_cleanup, tut03_dev, tut03_arr, createInstance, h,
          he, ha, List.append_assoc]
    · refine ⟨(createInstance env).trace ++ (createPhysicalDevicesArray env).trace, ?_⟩
      simp [tut03_main, tut03_cleanup, tut03_dev, tut03_arr, createInstance, h,
        he, List.append_assoc]

/-- C5 witness: both cleanup suffixes on the fully cooperative driver. -/
theorem teardown_reverse_order_witness :
    envAllOk.createInstanceRes = VkResult.VK_SUCCESS ∧
    ((∃ tr0, (tut02_main envAllOk).trace =
      tr0 ++ (freeIfSome (tut02_arr envAllOk)
        ++ [Event.evDestroyInstance (some ())])) ∧
     (∃ tr0, (tut03_main envAllOk).trace =
       tr0 ++ ([Event.evDestroyDevice (tut03_dev envAllOk)]
         ++ freeIfSome (tut03_arr envAllOk)
         ++ [Event.evDestroyInstance (some ())]))) :=
  ⟨rfl,
   (teardown_reverse_order envAllOk rfl).1,
   (teardown_reverse_order envAllOk rfl).2 (by decide)⟩

/-- C5 counterexample: in a fully successful run of tutorial03, the
logical-device destroy occurs strictly before the free of the
enumeration heap array, refuting the claimed release sequence "every
heap array allocated during enumeration is freed, then the logical
device handle is destroyed".  (The full trace: the device array has one
entry, the queue-family array two, so `evFree 1` is the enumeration
array's free.) -/
theorem teardown_reverse_order_cex :
    (tut03_main envAllOk).trace =
      [Event.evCreateInstance mkInstInfo VkResult.VK_SUCCESS,
       Event.evEnumPhysCount VkResult.VK_SUCCESS,
       Event.evMalloc 1 true,
       Event.evEnumPhysFill VkResult.VK_SUCCESS,
       Event.evQueueFamQuery false,
       Event.evMalloc 2 true,
       Event.evQueueFamQuery true,
       Event.evCreateDevice mkDevInfo VkResult.VK_SUCCESS,
       Event.evFree 2,
       Event.evDestroyDevice (some ()),
       Event.evFree 1,
       Event.evDestroyInstance (some ())] ∧
    (tut03_main envAllOk).trace.indexOf (Event.evDestroyDevice (some ())) <
      (tut03_main envAllOk).trace.indexOf (Event.evFree 1) := by
  decide

/-! ## C9: no layers, no extensions -/

theorem tut00_instInfo (env : Env) (i : VkInstanceCreateInfo) (r : VkResult)
    (h : Event.evCreateInstance i r ∈ (tut00_main env).trace) : i = mkInstInfo := by
  by_cases h1 : env.createInstanceRes = VkResult.VK_SUCCESS <;>
    simp [tut00_main, h1] at h <;> exact h.1

theorem tut01_instInfo (env : Env) (i : VkInstanceCreateInfo) (r : VkResult)
    (h : Event.evCreateInstance i r ∈ (tut01_main env).trace) : i = mkInstInfo := by
  have hsk := (enum_trace_skeleton env).2.1
  by_cases h1 : env.createInstanceRes = VkResult.VK_SUCCESS
  · by_cases he : (createPhysicalDevicesArray env).res = VkResult.VK_SUCCESS
    · cases ha : (createPhysicalDevicesArray env).arr <;>
        (simp [tut01_main, createInstance, freeIfSome, h1, he, ha, hsk i r] at h;
         exact h.1)
    · simp [tut01_main, createInstance, h1, he, hsk i r] at h
      exact h.1
  · simp [tut01_main, createInstance, h1] at h
    exact h.1

theorem tut02_instInfo (env : Env) (i : VkInstanceCreateInfo) (r : VkResult)
    (h : Event.evCreateInstance i r ∈ (tut02_main env).trace) : i = mkInstInfo := by
  have hsk := (enum_trace_skeleton env).2.1
  have hp := (printQF_skeleton env.qfEnv (createPhysicalDevicesArray env).count).2.1
  by_cases h1 : env.createInstanceRes = VkResult.VK_SUCCESS
  · by_cases he : (createPhysicalDevicesArray env).res = VkResult.VK_SUCCESS <;>
      cases ha : (createPhysicalDevicesArray env).arr <;>
        (simp [tut02_main, tut02_cleanup, createInstance, freeIfSome, h1, he, ha,
           hsk i r, hp i r] at h;
         exact h.1)
  · simp [tut02_main, createInstance, h1] at h
    exact h.1

theorem tut03_instInfo (env : Env) (i : VkInstanceCreateInfo) (r : VkResult)
    (h : Event.evCreateInstance i r ∈ (tut03_main env).trace) : i = mkInstInfo := by
  have hsk := (enum_trace_skeleton env).2.1
  have hcd := (createDevice_skeleton env).2.1
  by_cases h1 : env.createInstanceRes = VkResult.VK_SUCCESS
  · by_cases he : (createPhysicalDevicesArray env).res = VkResult.VK_SUCCESS <;>
      cases ha : (createPhysicalDevicesArray env).arr <;>
        (simp [tut03_main, tut03_cleanup, createInstance, freeIfSome, h1, he, ha,
           hsk i r, hcd i r] at h;
         exact h.1)
  · simp [tut03_main, createInstance, h1] at h
    exact h.1

theorem tut03_devInfo (env : Env) (i : VkDeviceCreateInfo) (r : VkResult)
    (h : Event.evCreateDevice i r ∈ (tut03_main env).trace) : i = mkDevInfo := by
  have hsk := (enum_trace_skeleton env).2.2.1
  have hcd := (createDevice_skeleton env).2.2.2
  by_cases h1 : env.createInstanceRes = VkResult.VK_SUCCESS
  · by_cases he : (createPhysicalDevicesArray env).res = VkResult.VK_SUCCESS
    · cases ha : (createPhysicalDevicesArray env).arr
      · simp [tut03_main, tut03_cleanup, createInstance, freeIfSome, h1, he, ha,
          hsk i r] at h
      · simp [tut03_main, tut03_cleanup, createInstance, freeIfSome, h1, he, ha,
          hsk i r] at h
        exact (hcd i r h).1
    · cases ha : (createPhysicalDevicesArray env).arr <;>
        simp [tut03_main, tut03_cleanup, createInstance, freeIfSome, h1, he, ha,
          hsk i r] at h
  · simp [tut03_main, createInstance, h1] at h

/-- C9: in every execution of every tutorial, every instance-creation
call passes zero enabled-layer and enabled-extension counts with null
name arrays to the native API; and, independently, every
device-creation call of tutorial03 likewise passes zero layer/extension
counts with null name arrays (together with its single queue request).
The two parts are separate implications, so the instance-creation
property holds in every execution, also in runs that never reach
`vkCreateDevice`. -/
theorem no_layers_no_extensions (env : Env) (info : VkInstanceCreateInfo)
    (dinfo : VkDeviceCreateInfo) (r r2 : VkResult) :
    ((Event.evCreateInstance info r ∈ (tut00_main env).trace ∨
      Event.evCreateInstance info r ∈ (tut01_main env).trace ∨
      Event.evCreateInstance info r ∈ (tut02_main env).trace ∨
      Event.evCreateInstance info r ∈ (tut03_main env).trace) →
      info.enabledLayerCount = 0 ∧ info.ppEnabledLayerNames = none ∧
      info.enabledExtensionCount = 0 ∧ info.ppEnabledExtensionNames = none) ∧
    (Event.evCreateDevice dinfo r2 ∈ (tut03_main env).trace →
      dinfo.enabledLayerCount = 0 ∧ dinfo.ppEnabledLayerNames = none ∧
      dinfo.enabledExtensionCount = 0 ∧ dinfo.ppEnabledExtensionNames = none ∧
      dinfo.queueCreateInfoCount = 1 ∧
      dinfo.pQueueCreateInfos = some mkDevQuInfo) := by
  constructor
  · intro hi
    have hinfo : info = mkInstInfo := by
      rcases hi with h | h | h | h
      · exact tut00_instInfo env info r h
      · exact tut01_instInfo env info r h
      · exact tut02_instInfo env info r h
      · exact tut03_instInfo env info r h
    subst hinfo
    exact ⟨rfl, rfl, rfl, rfl⟩
  · intro hd
    have hdinfo : dinfo = mkDevInfo := tut03_devInfo env dinfo r2 hd
    subst hdinfo
    exact ⟨rfl, rfl, rfl, rfl, rfl, rfl⟩

/-- C9 witness: both implications discharged on concrete events of a
fully successful run (and the instance half also on a run that never
reaches device creation, `envEnumFail`). -/
theorem no_layers_no_extensions_witness :
    (Event.evCreateInstance mkInstInfo VkResult.VK_SUCCESS ∈ (tut00_main envAllOk).trace) ∧
    (Event.evCreateInstance mkInstInfo VkResult.VK_SUCCESS ∈ (tut03_main envEnumFail).trace) ∧
    (Event.evCreateDevice mkDevInfo VkResult.VK_SUCCESS ∈ (tut03_main envAllOk).trace) ∧
    (mkInstInfo.enabledLayerCount = 0 ∧ mkInstInfo.ppEnabledLayerNames = none ∧
     mkInstInfo.enabledExtensionCount = 0 ∧ mkInstInfo.ppEnabledExtensionNames = none) ∧
    (mkInstInfo.enabledLayerCount = 0 ∧ mkInstInfo.ppEnabledLayerNames = none ∧
     mkInstInfo.enabledExtensionCount = 0 ∧ mkInstInfo.ppEnabledExtensionNames = none) ∧
    (mkDevInfo.enabledLayerCount = 0 ∧ mkDevInfo.ppEnabledLayerNames = none ∧
     mkDevInfo.enabledExtensionCount = 0 ∧ mkDevInfo.ppEnabledExtensionNames = none ∧
     mkDevInfo.queueCreateInfoCount = 1 ∧
     mkDevInfo.pQueueCreateInfos = some mkDevQuInfo) :=
  ⟨by decide, by decide, by decide,
   (no_layers_no_extensions envAllOk mkInstInfo mkDevInfo VkResult.VK_SUCCESS
     VkResult.VK_SUCCESS).1 (Or.inl (by decide)),
   (no_layers_no_extensions envEnumFail mkInstInfo mkDevInfo VkResult.VK_SUCCESS
     VkResult.VK_SUCCESS).1 (Or.inr (Or.inr (Or.inr (by decide)))),
   (no_layers_no_extensions envAllOk mkInstInfo mkDevInfo VkResult.VK_SUCCESS
     VkResult.VK_SUCCESS).2 (by decide)⟩
